import Mathlib

/-!
Verification development for the Personal Finance Coach agent (`src/app.js`).

The program is sequential glue: read `documents/transactions.csv`, split it
into overlapping chunks, embed the chunks into an in-memory vector store,
wrap a top-5 similarity search as the `TransactionRetriever` tool, and run a
read-eval-print loop that forwards each line to an `AgentExecutor`
(`maxIterations: 10`) and prints the result.

The shallow embedding below is split in two granularities:

* `runLoop` / `runProgram` model `main` (app.js lines 47-108) with the
  executor as an opaque fallible call, recording exit code, the inputs
  forwarded to the executor, and the outbound network calls;
* `execLoopSt` / `shellLoopSt` model one executor turn as the bounded
  iteration state machine over an explicit vector-store state, which lets the
  store-immutability invariant be stated.

Third-party langchain components (`RecursiveCharacterTextSplitter`,
`MemoryVectorStore`, `OpenAIEmbeddings`, `AgentExecutor`) are not part of
this repository's sources; their definitions are modelled from the spec and
say so in their doc comments.
-/

namespace FinanceCoach

/-! ## Chunk splitter (app.js lines 16-24) -/

/-- `chunkSize: 1000` from `loadTransactionChunks` (app.js line 19). -/
def chunkSize : Nat := 1000

/-- `chunkOverlap: 100` from `loadTransactionChunks` (app.js line 20). -/
def chunkOverlap : Nat := 100

/-- Modelled from the spec: the repository delegates chunking to langchain's
`RecursiveCharacterTextSplitter`, an external collaborator not in `src/`.
Spec 4.2: `split(text, chunkSize, overlap) -> sequence of TransactionChunk`,
deterministic, overlap < chunkSize required, output ordered by appearance.
We model the sliding-window split: each chunk takes `S` elements and the
next chunk starts `S - O` further on, so consecutive chunks share an overlap
of `O` elements.  `fuel` is a structural-recursion bound; `splitChunks`
supplies `t.length`, which always suffices since `S - O ≥ 1` elements are
consumed per step.  The degenerate configuration `S ≤ O` (spec: a
configuration error) stops immediately with a single chunk. -/
def splitChunksAux {α : Type} (S O : Nat) : Nat → List α → List (List α)
  | 0, t => [t]
  | fuel + 1, t =>
    if t.length ≤ S ∨ S ≤ O then [t]
    else t.take S :: splitChunksAux S O fuel (t.drop (S - O))

/-- Modelled from the spec: entry point of the chunk splitter, see
`splitChunksAux`. -/
def splitChunks {α : Type} (t : List α) (S O : Nat) : List (List α) :=
  splitChunksAux S O t.length t

/-- Rejoining with deduplication of the overlapping spans (spec section 8):
the first chunk is kept whole and every later chunk drops its first `O`
elements, which are the span shared with its predecessor. -/
def rejoinChunks {α : Type} (O : Nat) : List (List α) → List α
  | [] => []
  | c :: cs => c ++ (cs.map (fun d => d.drop O)).flatten

/-- `loadTransactionChunks` (app.js lines 16-24) with the file content passed
in: split the blob with the fixed configuration 1000 / 100. -/
def loadTransactionChunks (content : String) : List String :=
  (splitChunks content.data chunkSize chunkOverlap).map List.asString

/-! ## Embedding index (app.js lines 27-31)

Modelled from the spec: `OpenAIEmbeddings` and `MemoryVectorStore` are
external collaborators (spec 4.3): `build(chunks) -> index`;
`query(index, text, k) -> ordered sequence of (chunk, score)`, most-similar
first, length ≤ k.  Embeddings are integer vectors and the similarity score
is the dot product; the metric itself is opaque in the spec. -/

/-- Dot-product similarity between two embedding vectors. -/
def dotProduct : List Int → List Int → Int
  | [], _ => 0
  | _, [] => 0
  | a :: as, b :: bs => a * b + dotProduct as bs

/-- Modelled from the spec: the in-memory vector store holds the embedding
function and one `(pageContent, vector)` entry per chunk. -/
structure VectorStore where
  embedF : String → List Int
  entries : List (String × List Int)

/-- Modelled from the spec: `MemoryVectorStore.fromDocuments` embeds every
chunk once and stores the pairs. -/
def buildStore (embedF : String → List Int) (chunks : List String) : VectorStore :=
  ⟨embedF, chunks.map (fun c => (c, embedF c))⟩

/-- Score one stored entry against a query vector, keeping the chunk text. -/
def scoreEntry (qv : List Int) (e : String × List Int) : String × Int :=
  (e.1, dotProduct e.2 qv)

/-- Comparison used to order search results: `a` scores at least as high as
`b` (most-similar first). -/
def simGE (a b : String × Int) : Prop := b.2 ≤ a.2

instance : DecidableRel simGE :=
  fun a b => inferInstanceAs (Decidable (b.2 ≤ a.2))

instance : IsTotal (String × Int) simGE :=
  ⟨fun a b => Int.le_total b.2 a.2⟩

instance : IsTrans (String × Int) simGE :=
  ⟨fun _ _ _ h h' => le_trans h' h⟩

/-- Modelled from the spec: `query(index, text, k)` — embed the query, score
every stored entry, order most-similar first and keep at most `k`. -/
def similaritySearchWithScore (vs : VectorStore) (text : String) (k : Nat) :
    List (String × Int) :=
  (List.insertionSort simGE (vs.entries.map (scoreEntry (vs.embedF text)))).take k

/-- `vectorStore.similaritySearch(text, k)` as used by the tool: the ordered
chunk texts without their scores. -/
def similaritySearch (vs : VectorStore) (text : String) (k : Nat) : List String :=
  (similaritySearchWithScore vs text k).map Prod.fst

/-! ## TransactionRetriever tool (app.js lines 34-44) -/

/-- The delimiter `'\n---\n'` used by `results.map(...).join('\n---\n')`
(app.js line 41). -/
def toolDelimiter : String := "\n---\n"

/-- JavaScript `Array.prototype.join(sep)`: empty list gives the empty
string, otherwise the elements separated by `sep`. -/
def joinWith (sep : String) : List String → String
  | [] => ""
  | [x] => x
  | x :: y :: ys => x ++ sep ++ joinWith sep (y :: ys)

/-- One similarity-search call issued against the vector store, recording the
query text and the `k` argument. -/
structure SearchCall where
  query : String
  k : Nat
deriving DecidableEq

/-- The tool body (app.js lines 39-42): one call
`vectorStore.similaritySearch(input, 5)`, then join the page contents with
the delimiter.  The second component is the trace of search calls issued. -/
def transactionRetrieverInvoke (vs : VectorStore) (input : String) :
    String × List SearchCall :=
  (joinWith toolDelimiter (similaritySearch vs input 5), [⟨input, 5⟩])

/-! ## Agent executor (app.js lines 69-80)

Modelled from the spec: `createOpenAIFunctionsAgent` / `AgentExecutor` are
external collaborators.  Spec 4.5 state machine per user turn: Start → send
prompt to model; Decide: the model answers directly (Done) or requests a
tool call (ToolExec: invoke the Retrieval Tool, append the result to the
conversation context, back to Decide); Aborted: if the iteration count
would exceed the fixed ceiling before reaching Done, terminate with a
fallback response.  The model's behaviour in a turn is abstracted as
`plan : Nat → Decision`, its decision at each iteration index (the
conversation context, including tool results, is folded into `plan`). -/

/-- `maxIterations: 10` from the `AgentExecutor` configuration
(app.js line 79). -/
def maxIterations : Nat := 10

/-- Modelled from the spec: the degraded response emitted when the iteration
ceiling is reached instead of a final answer. -/
def fallbackOutput : String := "Agent stopped due to max iterations."

/-- One model decision: a direct final answer, or a request to invoke the
`TransactionRetriever` tool with an argument string. -/
inductive Decision where
  | answer (text : String)
  | toolCall (arg : String)
deriving DecidableEq

/-- Executing the tool against the store: `similaritySearch` only reads the
store's entries, so the store comes back as it went in. -/
def toolExec (vs : VectorStore) (q : String) : String × VectorStore :=
  ((transactionRetrieverInvoke vs q).1, vs)

/-- Modelled from the spec: the bounded executor loop.  `fuel` is the number
of iterations still allowed, `iter` the number already executed.  Returns
the output text, the total number of iterations executed, and the
vector-store state after the turn. -/
def execLoopSt (plan : Nat → Decision) :
    Nat → Nat → VectorStore → String × Nat × VectorStore
  | 0, iter, vs => (fallbackOutput, iter, vs)
  | fuel + 1, iter, vs =>
    match plan iter with
    | .answer s => (s, iter + 1, vs)
    | .toolCall q => execLoopSt plan fuel (iter + 1) (toolExec vs q).2

/-- `executor.invoke({ input })` (app.js line 102): run the bounded loop with
the configured ceiling, starting at iteration 0. -/
def executorInvoke (plan : String → Nat → Decision) (vs : VectorStore)
    (input : String) : String × Nat × VectorStore :=
  execLoopSt (plan input) maxIterations 0 vs

/-- JavaScript `String.prototype.toLowerCase()` as applied to the prompt
line (app.js line 97): lower-case every character. -/
def jsToLower (s : String) : String := (s.data.map Char.toLower).asString

/-- The interactive loop of `main` (app.js lines 95-105) with the executor's
state machine inlined and the vector-store state threaded explicitly through
every turn.  Returns the printed outputs and the final store state. -/
def shellLoopSt (plan : String → Nat → Decision) :
    List String → VectorStore → List String × VectorStore
  | [], vs => ([], vs)
  | input :: rest, vs =>
    if jsToLower input = "exit" then ([], vs)
    else
      let t := executorInvoke plan vs input
      let r := shellLoopSt plan rest t.2.2
      (t.1 :: r.1, r.2)

/-! ## The interactive shell and process-level behaviour (app.js lines 47-110) -/

/-- Failure of the external model call made by `executor.invoke`. -/
inductive ModelError where
  | failure
deriving DecidableEq

/-- Startup failure: `fs.readFile('documents/transactions.csv')` rejecting
(missing or unreadable file). -/
inductive StartupError where
  | missingFile
  | fileUnreadable
deriving DecidableEq

/-- Outbound network calls, at occurrence granularity: the one
`embedDocuments` call made while building the store at startup, and one
marker per `executor.invoke` (each invocation makes at least one model
call). -/
inductive NetCall where
  | embedDocuments
  | modelCall
deriving DecidableEq

/-- Observable result of the interactive loop (app.js lines 95-105):
process exit code, the inputs forwarded to `executor.invoke` in order, and
the printed answers. -/
structure LoopResult where
  exitCode : Nat
  invocations : List String
  outputs : List String
deriving DecidableEq

/-- The interactive loop of `main` (app.js lines 95-105), with
`executor.invoke` abstracted as the fallible `turn`.  The source compares
`userPrompt.toLowerCase()` against `'exit'` — there is no trimming — and
`await executor.invoke(...)` stands inside no try/catch: a rejection
escapes `main` as an unhandled promise rejection, so the process dies with
exit code 1 and no later input is read.  Exhausting the inputs models the
end of the input stream (the pending `rl.question` never resolves and the
process exits cleanly). -/
def runLoop (turn : String → Except ModelError String) :
    List String → LoopResult
  | [] => ⟨0, [], []⟩
  | input :: rest =>
    if jsToLower input = "exit" then ⟨0, [], []⟩
    else
      match turn input with
      | .error _ => ⟨1, [input], []⟩
      | .ok out =>
        let r := runLoop turn rest
        ⟨r.exitCode, input :: r.invocations, out :: r.outputs⟩

/-- Observable result of one whole process run. -/
structure ProgramResult where
  exitCode : Nat
  loopEntered : Bool
  netCalls : List NetCall
  chunks : List String
  invocations : List String
  outputs : List String
deriving DecidableEq

/-- One process run of `app.js`.  Module evaluation constructs `ChatOpenAI`
with `process.env.OPENAI_API_KEY` (app.js lines 47-51), which throws when
the credential is absent (modelled from the spec: missing credential is a
fatal `ConfigError` before the loop).  `main` then reads the transactions
file (a rejection is fatal, exit non-zero, loop never entered), splits it,
and builds the vector store — the startup `embedDocuments` network call —
before the first prompt is shown; only then does the loop run. -/
def runProgram (apiKey : Option String) (file : Except StartupError String)
    (turn : String → Except ModelError String) (inputs : List String) :
    ProgramResult :=
  match apiKey with
  | none => ⟨1, false, [], [], [], []⟩
  | some _ =>
    match file with
    | .error _ => ⟨1, false, [], [], [], []⟩
    | .ok content =>
      let docs := loadTransactionChunks content
      let r := runLoop turn inputs
      ⟨r.exitCode, true,
        NetCall.embedDocuments :: r.invocations.map (fun _ => NetCall.modelCall),
        docs, r.invocations, r.outputs⟩

/-! ## Helper lemmas -/

/-- Dropping the overlap from every chunk of a split and flattening yields
the original list with its first `O` elements dropped. -/
theorem splitChunksAux_flatten_drop {α : Type} (S O : Nat) (h : O < S) :
    ∀ (fuel : Nat) (t : List α), t.length ≤ fuel →
      ((splitChunksAux S O fuel t).map (fun d => d.drop O)).flatten = t.drop O := by
  intro fuel
  induction fuel with
  | zero =>
    intro t ht
    have ht0 : t = [] := List.length_eq_zero.mp (Nat.le_zero.mp ht)
    subst ht0
    simp [splitChunksAux]
  | succ n ih =>
    intro t ht
    by_cases hts : t.length ≤ S
    · simp [splitChunksAux, hts]
    · have hSO : ¬ S ≤ O := Nat.not_le.mpr h
      have hcond : ¬ (t.length ≤ S ∨ S ≤ O) := not_or.mpr ⟨hts, hSO⟩
      simp only [splitChunksAux, if_neg hcond, List.map_cons, List.flatten_cons]
      have hlen : (t.drop (S - O)).length ≤ n := by
        rw [List.length_drop]
        omega
      rw [ih (t.drop (S - O)) hlen, List.drop_take, List.drop_drop,
        Nat.sub_add_cancel h.le]
      have h2 : t.drop S = (t.drop O).drop (S - O) := by
        rw [List.drop_drop, Nat.add_sub_cancel' h.le]
      rw [h2, List.take_append_drop]

/-- With overlap smaller than the chunk size, rejoining a split reproduces
the input. -/
theorem splitChunksAux_rejoin {α : Type} (S O : Nat) (h : O < S) :
    ∀ (fuel : Nat) (t : List α), t.length ≤ fuel →
      rejoinChunks O (splitChunksAux S O fuel t) = t := by
  intro fuel t ht
  cases fuel with
  | zero =>
    have ht0 : t = [] := List.length_eq_zero.mp (Nat.le_zero.mp ht)
    subst ht0
    simp [splitChunksAux, rejoinChunks]
  | succ n =>
    by_cases hts : t.length ≤ S
    · simp [splitChunksAux, hts, rejoinChunks]
    · have hSO : ¬ S ≤ O := Nat.not_le.mpr h
      have hcond : ¬ (t.length ≤ S ∨ S ≤ O) := not_or.mpr ⟨hts, hSO⟩
      simp only [splitChunksAux, if_neg hcond, rejoinChunks]
      have hlen : (t.drop (S - O)).length ≤ n := by
        rw [List.length_drop]
        omega
      rw [splitChunksAux_flatten_drop S O h n (t.drop (S - O)) hlen,
        List.drop_drop, Nat.sub_add_cancel h.le, List.take_append_drop]

/-! ## Claims -/

/-- C7: for every input text and all chunk sizes `S` and overlaps `O` with
`O < S`, splitting into chunks and rejoining the chunks while deduplicating
the overlapping spans reproduces the original text exactly. -/
theorem split_rejoin_roundtrip {α : Type} (S O : Nat) (h : O < S) (t : List α) :
    rejoinChunks O (splitChunks t S O) = t :=
  splitChunksAux_rejoin S O h t.length t le_rfl

/-- Witness for C7 at the concrete text "abcdefgh", chunk size 3, overlap 1. -/
theorem split_rejoin_roundtrip_witness :
    1 < 3 ∧ rejoinChunks 1 (splitChunks "abcdefgh".data 3 1) = "abcdefgh".data :=
  ⟨by decide, split_rejoin_roundtrip 3 1 (by decide) "abcdefgh".data⟩

/-- C10: the chunk splitter is always configured with the fixed values
`chunkSize = 1000` and `chunkOverlap = 100`, so the configuration-error
precondition `overlap < chunkSize` holds and the degenerate/infinite
chunking case is unreachable: splitting with the reference configuration is
well-behaved on every content (the rejoin round trip holds). -/
theorem splitter_config_safe :
    chunkOverlap < chunkSize ∧ chunkSize = 1000 ∧ chunkOverlap = 100 ∧
    ∀ content : String,
      rejoinChunks chunkOverlap (splitChunks content.data chunkSize chunkOverlap)
        = content.data :=
  ⟨by decide, rfl, rfl,
    fun content => splitChunksAux_rejoin chunkSize chunkOverlap (by decide)
      content.data.length content.data le_rfl⟩

/-- C5: for every chunk set (vector store), query text, and `k`, the
embedding-index query returns at most `k` results, ordered most-similar
first (non-increasing similarity score). -/
theorem similarity_query_bounded_sorted (vs : VectorStore) (text : String) (k : Nat) :
    (similaritySearchWithScore vs text k).length ≤ k ∧
    (similaritySearchWithScore vs text k).Pairwise simGE := by
  constructor
  · simp [similaritySearchWithScore, List.length_take]
  · exact List.Pairwise.sublist (List.take_sublist _ _)
      (List.sorted_insertionSort simGE _)

/-- Every member of a joined list appears verbatim (as a contiguous
character run) in the joined string. -/
theorem joinWith_data_of_mem (sep : String) :
    ∀ (l : List String) (s : String), s ∈ l →
      ∃ u v, (joinWith sep l).data = u ++ s.data ++ v := by
  intro l
  induction l with
  | nil =>
    intro s hs
    cases hs
  | cons x xs ih =>
    intro s hs
    cases xs with
    | nil =>
      have hx : s = x := by simpa using hs
      subst hx
      exact ⟨[], [], by simp [joinWith]⟩
    | cons y ys =>
      rcases List.mem_cons.mp hs with h1 | h2
      · subst h1
        refine ⟨[], (sep ++ joinWith sep (y :: ys)).data, ?_⟩
        simp [joinWith, String.data_append, List.append_assoc]
      · obtain ⟨u, v, huv⟩ := ih s h2
        refine ⟨x.data ++ sep.data ++ u, v, ?_⟩
        simp [joinWith, String.data_append, huv, List.append_assoc]

/-- C4: for every query string, the TransactionRetriever tool performs
exactly one similarity search against the index, with the fixed `k = 5`,
and returns the retrieved chunk texts joined with the delimiter, each
retrieved chunk's text appearing verbatim in the result. -/
theorem retriever_tool_spec (vs : VectorStore) (input : String) :
    (transactionRetrieverInvoke vs input).2 = [⟨input, 5⟩] ∧
    (transactionRetrieverInvoke vs input).1
      = joinWith toolDelimiter (similaritySearch vs input 5) ∧
    ∀ c ∈ similaritySearch vs input 5,
      ∃ u v, ((transactionRetrieverInvoke vs input).1).data = u ++ c.data ++ v :=
  ⟨rfl, rfl, fun _ hc => joinWith_data_of_mem toolDelimiter _ _ hc⟩

/-- A concrete two-chunk store for exercising the retrieval path. -/
def sampleStore : VectorStore :=
  buildStore (fun s => [(s.length : Int)]) ["a,b", "c,d,e"]

/-- Witness for C4: on the sample store the chunk "a,b" is retrieved and its
text occurs verbatim in the tool output. -/
theorem retriever_tool_spec_witness :
    "a,b" ∈ similaritySearch sampleStore "q" 5 ∧
    ∃ u v, ((transactionRetrieverInvoke sampleStore "q").1).data
      = u ++ ("a,b").data ++ v :=
  ⟨by decide, (retriever_tool_spec sampleStore "q").2.2 "a,b" (by decide)⟩

/-- The executor loop never runs more iterations than the fuel it was
given. -/
theorem execLoopSt_iter_le (plan : Nat → Decision) :
    ∀ (fuel iter : Nat) (vs : VectorStore),
      (execLoopSt plan fuel iter vs).2.1 ≤ iter + fuel := by
  intro fuel
  induction fuel with
  | zero =>
    intro iter vs
    simp [execLoopSt]
  | succ n ih =>
    intro iter vs
    simp only [execLoopSt]
    cases plan iter with
    | answer s =>
      simp only []
      omega
    | toolCall q =>
      have := ih (iter + 1) (toolExec vs q).2
      simp only []
      omega

/-- A plan that requests the tool at every iteration drives the executor to
fuel exhaustion: all allowed iterations run and the fallback is emitted. -/
theorem execLoopSt_alwaysTool (plan : Nat → Decision)
    (hp : ∀ i, ∃ q, plan i = Decision.toolCall q) :
    ∀ (fuel iter : Nat) (vs : VectorStore),
      execLoopSt plan fuel iter vs = (fallbackOutput, iter + fuel, vs) := by
  intro fuel
  induction fuel with
  | zero =>
    intro iter vs
    simp [execLoopSt]
  | succ n ih =>
    intro iter vs
    obtain ⟨q, hq⟩ := hp iter
    simp only [execLoopSt, hq]
    rw [ih (iter + 1) (toolExec vs q).2]
    simp only [toolExec, Prod.mk.injEq, and_true, true_and]
    omega

/-- The executor loop returns the store state it was given. -/
theorem execLoopSt_store_eq (plan : Nat → Decision) :
    ∀ (fuel iter : Nat) (vs : VectorStore),
      (execLoopSt plan fuel iter vs).2.2 = vs := by
  intro fuel
  induction fuel with
  | zero =>
    intro iter vs
    rfl
  | succ n ih =>
    intro iter vs
    simp only [execLoopSt]
    cases plan iter with
    | answer s => rfl
    | toolCall q => exact ih (iter + 1) (toolExec vs q).2

/-- C3: a turn never executes more than 10 orchestrator iterations, and if
the model requests a tool invocation on every iteration the executor stops
after exactly 10 iterations with the degraded fallback response instead of
looping forever. -/
theorem executor_iteration_ceiling (plan : String → Nat → Decision)
    (vs : VectorStore) (input : String) :
    (executorInvoke plan vs input).2.1 ≤ maxIterations ∧
    ((∀ i, ∃ q, plan input i = Decision.toolCall q) →
      (executorInvoke plan vs input).2.1 = maxIterations ∧
      (executorInvoke plan vs input).1 = fallbackOutput) := by
  constructor
  · simpa using execLoopSt_iter_le (plan input) maxIterations 0 vs
  · intro hp
    rw [executorInvoke, execLoopSt_alwaysTool (plan input) hp maxIterations 0 vs]
    exact ⟨Nat.zero_add maxIterations, rfl⟩

/-- Witness for C3: a model that always asks for the tool runs exactly 10
iterations and yields the fallback output. -/
theorem executor_iteration_ceiling_witness :
    (executorInvoke (fun _ _ => Decision.toolCall "q") sampleStore "x").2.1
      = maxIterations ∧
    (executorInvoke (fun _ _ => Decision.toolCall "q") sampleStore "x").1
      = fallbackOutput :=
  (executor_iteration_ceiling (fun _ _ => Decision.toolCall "q") sampleStore "x").2
    (fun _ => ⟨"q", rfl⟩)

/-- C8: the vector store built at startup is never added to, removed from,
or mutated: running the shell over any sequence of turns leaves the store
exactly as it was built. -/
theorem vector_store_immutable (plan : String → Nat → Decision)
    (inputs : List String) (vs : VectorStore) :
    (shellLoopSt plan inputs vs).2 = vs := by
  induction inputs generalizing vs with
  | nil => rfl
  | cons input rest ih =>
    simp only [shellLoopSt]
    by_cases hx : jsToLower input = "exit"
    · simp [hx]
    · simp only [if_neg hx]
      show (shellLoopSt plan rest (executorInvoke plan vs input).2.2).2 = vs
      rw [ih]
      exact execLoopSt_store_eq (plan input) maxIterations 0 vs

/-- C1 counterexample: with a model call that fails, the failing turn ends
the run with exit code 1 and the next input is never forwarded — the loop
does not continue to the next prompt, refuting the claim that per-turn
errors are caught at the turn boundary. -/
theorem turn_error_halts_loop_cex :
    (runLoop (fun _ => Except.error ModelError.failure)
        ["how much did I spend", "on groceries"]).invocations
      = ["how much did I spend"] ∧
    (runLoop (fun _ => Except.error ModelError.failure)
        ["how much did I spend", "on groceries"]).exitCode = 1 := by
  exact ⟨rfl, rfl⟩

/-- C1 (amended): a model-call failure during a turn is not caught — the
rejection escapes the loop, the process terminates with exit code 1, only
the failing input was forwarded, and no answer is printed. -/
theorem turn_error_halts_loop (turn : String → Except ModelError String)
    (input : String) (rest : List String) (e : ModelError)
    (hx : jsToLower input ≠ "exit") (he : turn input = Except.error e) :
    runLoop turn (input :: rest) = ⟨1, [input], []⟩ := by
  simp [runLoop, hx, he]

/-- Witness for the amended C1 at a concrete failing turn. -/
theorem turn_error_halts_loop_witness :
    jsToLower "what did I spend" ≠ "exit" ∧
    runLoop (fun _ => Except.error ModelError.failure)
        ["what did I spend", "next question"]
      = ⟨1, ["what did I spend"], []⟩ :=
  ⟨by decide,
    turn_error_halts_loop (fun _ => Except.error ModelError.failure)
      "what did I spend" ["next question"] ModelError.failure (by decide) rfl⟩

/-- C2 counterexample: even when the very first input is the exit keyword
the run has already made a network call — the startup `embedDocuments` call
that builds the vector store — so the trace of network calls before
termination is not empty (the exit code is 0 as claimed). -/
theorem exit_first_startup_embedding_cex :
    (runProgram (some "sk-test") (Except.ok "2024-01-05,Groceries,54.20\n")
        (fun _ => Except.ok "") ["exit"]).exitCode = 0 ∧
    (runProgram (some "sk-test") (Except.ok "2024-01-05,Groceries,54.20\n")
        (fun _ => Except.ok "") ["exit"]).netCalls = [NetCall.embedDocuments] ∧
    (runProgram (some "sk-test") (Except.ok "2024-01-05,Groceries,54.20\n")
        (fun _ => Except.ok "") ["exit"]).netCalls ≠ [] := by
  refine ⟨rfl, rfl, by decide⟩

/-- C2 (amended): if the very first input is the exit keyword in any letter
case, the loop terminates with exit code 0, the executor is never invoked
— hence no model call is made — and the only network call of the whole run
is the startup embedding of the transaction chunks. -/
theorem exit_first_no_model_calls (key content : String)
    (turn : String → Except ModelError String)
    (first : String) (rest : List String) (h : jsToLower first = "exit") :
    (runProgram (some key) (Except.ok content) turn (first :: rest)).exitCode = 0 ∧
    (runProgram (some key) (Except.ok content) turn (first :: rest)).invocations
      = [] ∧
    (runProgram (some key) (Except.ok content) turn (first :: rest)).netCalls
      = [NetCall.embedDocuments] := by
  simp [runProgram, runLoop, h]

/-- Witness for the amended C2 with the upper-case first input "EXIT". -/
theorem exit_first_no_model_calls_witness :
    jsToLower "EXIT" = "exit" ∧
    (runProgram (some "sk-test") (Except.ok "a,b")
        (fun _ => Except.ok "") ["EXIT"]).netCalls = [NetCall.embedDocuments] :=
  ⟨by decide,
    (exit_first_no_model_calls "sk-test" "a,b" (fun _ => Except.ok "")
      "EXIT" [] (by decide)).2.2⟩

/-- C6 counterexample: the line " exit" (leading space) trims to the exit
keyword, so under the claim the loop would terminate without forwarding it;
the code does not trim, and the line is forwarded to the orchestrator. -/
theorem no_trim_cex :
    (runLoop (fun s => Except.ok s) [" exit"]).invocations = [" exit"] ∧
    runLoop (fun s => Except.ok s) [" exit"]
      ≠ (⟨0, [], []⟩ : LoopResult) := by
  exact ⟨rfl, by decide⟩

/-- C6 (amended): no trimming is applied — the raw line is lower-cased and
compared against "exit"; a line whose lower-casing is exactly "exit"
terminates the loop cleanly, and every other line, including the empty
string and whitespace-padded variants, is forwarded to the orchestrator
exactly as typed. -/
theorem input_processing_no_trim (turn : String → Except ModelError String)
    (input : String) (rest : List String) :
    (jsToLower input = "exit" →
      runLoop turn (input :: rest) = ⟨0, [], []⟩) ∧
    (jsToLower input ≠ "exit" →
      (runLoop turn (input :: rest)).invocations.head? = some input) := by
  constructor
  · intro h
    simp [runLoop, h]
  · intro h
    cases ht : turn input with
    | error e => simp [runLoop, h, ht]
    | ok out => simp [runLoop, h, ht]

/-- Witness for the amended C6: the empty line is forwarded as-is. -/
theorem input_processing_no_trim_witness :
    jsToLower "" ≠ "exit" ∧
    (runLoop (fun s => Except.ok s) [""]).invocations.head? = some "" :=
  ⟨by decide, (input_processing_no_trim (fun s => Except.ok s) "" []).2 (by decide)⟩

/-- When every turn's model call succeeds, the loop always ends with exit
code 0, whether by the exit command or by exhausting the input stream. -/
theorem runLoop_exitCode_ok (turn : String → Except ModelError String)
    (hok : ∀ s, ∃ o, turn s = Except.ok o) :
    ∀ inputs : List String, (runLoop turn inputs).exitCode = 0 := by
  intro inputs
  induction inputs with
  | nil => rfl
  | cons input rest ih =>
    by_cases hx : jsToLower input = "exit"
    · simp [runLoop, hx]
    · obtain ⟨o, ho⟩ := hok input
      simp [runLoop, hx, ho, ih]

/-- C9: the process exits with code 0 on the clean exit command or when the
input stream ends (given the turns themselves succeed), and exits non-zero
with the loop never entered when startup fails — missing API credential or
unreadable transactions file. -/
theorem exit_code_policy (key content : String) (e : StartupError)
    (turn : String → Except ModelError String) (inputs : List String) :
    ((∀ s, ∃ o, turn s = Except.ok o) →
      (runProgram (some key) (Except.ok content) turn inputs).exitCode = 0) ∧
    ((runProgram none (Except.ok content) turn inputs).exitCode ≠ 0 ∧
      (runProgram none (Except.ok content) turn inputs).loopEntered = false) ∧
    ((runProgram (some key) (Except.error e) turn inputs).exitCode ≠ 0 ∧
      (runProgram (some key) (Except.error e) turn inputs).loopEntered = false) := by
  refine ⟨?_, ⟨by simp [runProgram], rfl⟩, ⟨by simp [runProgram], rfl⟩⟩
  intro hok
  exact runLoop_exitCode_ok turn hok inputs

/-- Witness for C9: a run whose only input is the exit command finishes
with exit code 0. -/
theorem exit_code_policy_witness :
    (runProgram (some "sk-test") (Except.ok "a,b")
        (fun _ => Except.ok "fine") ["exit"]).exitCode = 0 :=
  (exit_code_policy "sk-test" "a,b" StartupError.missingFile
      (fun _ => Except.ok "fine") ["exit"]).1
    (fun _ => ⟨"fine", rfl⟩)

end FinanceCoach
